import Mathlib

/-!
Verification of the trade-journal application core.

The embedding below follows `app/models.py` (the `Trade` model with its
`pl` and `r_multiple` methods), `app/routes.py` (the dashboard metrics of
`index` and the `edit_trade` / `delete_trade` mutation routes) and
`app/forms.py` (the `TradeForm` fields copied by `populate_obj`).

Numeric columns (`db.Float`) are modelled as exact rationals; optional
columns as `Option`.  Python float truthiness (`if self.fees:`,
`if not self.risk:`, `t.pl() or 0`) is modelled explicitly: `None` and
`0.0` are falsy, every other value truthy.
-/

namespace TradeJournal

/-- One row of the `trade` table (`app/models.py`, class `Trade`).
`timestamp` is an abstract tick, string columns are `String`s, nullable
columns are `Option`s. -/
structure Trade where
  id : Nat
  user_id : Nat
  timestamp : Nat
  symbol : String
  market : Option String
  direction : String
  entry_price : Rat
  exit_price : Option Rat
  quantity : Rat
  stop_loss : Option Rat
  take_profit : Option Rat
  fees : Option Rat
  risk : Option Rat
  notes : Option String
  emotions : Option String
  rule_adherence : Option Int
deriving DecidableEq, Repr

/-- Python truthiness of an optional float column: `None` and `0.0` are
falsy, any other number is truthy (used by `if self.fees:` and
`if not self.risk:`). -/
def optTruthy (x : Option Rat) : Bool :=
  match x with
  | none => false
  | some v => v != 0

/-- Python's `str.lower()` as used on the direction column: lower-case
every character (the stored directions are ASCII `long`/`short`). -/
def lower (s : String) : String :=
  ⟨s.data.map Char.toLower⟩

/-- `Trade.pl` from `app/models.py`: profit or loss of the trade, fees
deducted; `None` while the trade is still open. -/
def Trade.pl (t : Trade) : Option Rat :=
  match t.exit_price with
  | none => none
  | some exitPrice =>
    let price_diff :=
      if lower t.direction = "long" then exitPrice - t.entry_price
      else t.entry_price - exitPrice
    let pnl := price_diff * t.quantity
    let pnl := if optTruthy t.fees then pnl - t.fees.getD 0 else pnl
    some pnl

/-- `Trade.r_multiple` from `app/models.py`: the R-multiple based on the
planned risk, `None` when the risk is falsy or the P/L is undefined. -/
def Trade.r_multiple (t : Trade) : Option Rat :=
  if optTruthy t.risk = false then none
  else
    match t.pl with
    | none => none
    | some pl_value =>
      if t.risk.getD 0 = 0 then none
      else some (pl_value / t.risk.getD 0)

/-- Python `x or 0` applied to an optional P/L value (`t.pl() or 0` in
`app/routes.py`): a falsy P/L (`None` or `0.0`) is replaced by the
literal `0`. -/
def orZero (x : Option Rat) : Rat :=
  match x with
  | none => 0
  | some v => if v = 0 then 0 else v

/-- `net_pl` computed by the `index` route:
`sum((t.pl() or 0) for t in trades)`. -/
def net_pl (trades : List Trade) : Rat :=
  (trades.map (fun t => orZero t.pl)).sum

/-- `win_count` computed by the `index` route:
`len([t for t in trades if (t.pl() or 0) > 0])`. -/
def win_count (trades : List Trade) : Nat :=
  (trades.filter (fun t => decide (0 < orZero t.pl))).length

/-- `loss_count` computed by the `index` route:
`len([t for t in trades if (t.pl() or 0) < 0])`. -/
def loss_count (trades : List Trade) : Nat :=
  (trades.filter (fun t => decide (orZero t.pl < 0))).length

/-- The data of a validated `TradeForm` submission (`app/forms.py`,
class `TradeForm`): every field that `form.populate_obj(trade)` copies
onto the trade. -/
structure TradeForm where
  symbol : String
  market : Option String
  direction : String
  entry_price : Rat
  exit_price : Option Rat
  quantity : Rat
  stop_loss : Option Rat
  take_profit : Option Rat
  fees : Option Rat
  risk : Option Rat
  notes : Option String
  emotions : Option String
  rule_adherence : Option Int
deriving DecidableEq, Repr

/-- `form.populate_obj(trade)`: overwrite the form-backed columns of the
trade; `id`, `user_id` and `timestamp` are not form fields and stay. -/
def populate_obj (f : TradeForm) (t : Trade) : Trade :=
  { t with
    symbol := f.symbol
    market := f.market
    direction := f.direction
    entry_price := f.entry_price
    exit_price := f.exit_price
    quantity := f.quantity
    stop_loss := f.stop_loss
    take_profit := f.take_profit
    fees := f.fees
    risk := f.risk
    notes := f.notes
    emotions := f.emotions
    rule_adherence := f.rule_adherence }

/-- The persisted trade table, a snapshot of the rows. -/
structure Db where
  trades : List Trade
deriving DecidableEq, Repr

/-- `Trade.query.get(trade_id)`: the first stored row with the given
primary key, if any. -/
def Db.get (db : Db) (tid : Nat) : Option Trade :=
  db.trades.find? (fun t => t.id == tid)

/-- The observable outcome of a mutation route: a 404 page from
`get_or_404`, a redirect to the dashboard carrying the flashed message,
or a rendering of the trade form (GET or failed validation). -/
inductive Response where
  | notFound
  | redirectIndex (flash : String)
  | renderForm
deriving DecidableEq, Repr

/-- Replace the first row satisfying `p` by its image under `f`, leaving
every other row untouched (the ORM mutates the single fetched object). -/
def modifyFirst (p : Trade → Bool) (f : Trade → Trade) : List Trade → List Trade
  | [] => []
  | t :: ts => if p t then f t :: ts else t :: modifyFirst p f ts

/-- The `edit_trade` route of `app/routes.py`.  `submitted = some form`
models a request where `form.validate_on_submit()` holds; `none` models
a GET or a failed validation. -/
def edit_trade (db : Db) (current_user_id : Nat) (trade_id : Nat)
    (submitted : Option TradeForm) : Response × Db :=
  match db.get trade_id with
  | none => (Response.notFound, db)
  | some trade =>
    if trade.user_id ≠ current_user_id then
      (Response.redirectIndex "Unauthorized access", db)
    else
      match submitted with
      | some form =>
        (Response.redirectIndex "Trade updated",
         ⟨modifyFirst (fun t => t.id == trade_id) (populate_obj form) db.trades⟩)
      | none => (Response.renderForm, db)

/-- The `delete_trade` route of `app/routes.py` (POST only). -/
def delete_trade (db : Db) (current_user_id : Nat) (trade_id : Nat) :
    Response × Db :=
  match db.get trade_id with
  | none => (Response.notFound, db)
  | some trade =>
    if trade.user_id ≠ current_user_id then
      (Response.redirectIndex "Unauthorized access", db)
    else
      (Response.redirectIndex "Trade deleted",
       ⟨db.trades.eraseP (fun t => t.id == trade_id)⟩)

/-- A closed winning long trade (entry 100, exit 150, quantity 10,
fees 20), the worked example of the specification. -/
def sampleTrade : Trade :=
  { id := 1
    user_id := 1
    timestamp := 0
    symbol := "AAPL"
    market := some "stocks"
    direction := "long"
    entry_price := 100
    exit_price := some 150
    quantity := 10
    stop_loss := none
    take_profit := none
    fees := some 20
    risk := some 50
    notes := none
    emotions := none
    rule_adherence := some 5 }

/-- A closed losing long trade: entry 100, exit 90, quantity 10, no
fees, planned risk 50, so P/L −100 and R-multiple −2. -/
def losingTrade : Trade :=
  { sampleTrade with
    id := 2
    direction := "long"
    exit_price := some 90
    fees := none }

/-- An open trade (no exit price) with no planned risk. -/
def openTrade : Trade :=
  { sampleTrade with
    id := 3
    exit_price := none
    risk := none }

/-- A closed trade whose direction string is empty (not a valid
direction at all). -/
def blankDirectionTrade : Trade :=
  { sampleTrade with
    id := 4
    direction := ""
    fees := none }

/-! ### Helper lemmas -/

/-- Python's `x or 0` on an optional number agrees with `Option.getD 0`:
replacing a falsy `0.0` by the literal `0` does not change the value. -/
theorem orZero_eq_getD (x : Option Rat) : orZero x = x.getD 0 := by
  cases x with
  | none => rfl
  | some v => by_cases h : v = 0 <;> simp [orZero, h]

/-- The filter predicate of `win_count` tests exactly "P/L defined and
strictly positive". -/
theorem winPred_eq (x : Option Rat) :
    decide (0 < orZero x) =
      match x with
      | some p => decide (0 < p)
      | none => false := by
  cases x with
  | none => simp [orZero]
  | some v => by_cases h : v = 0 <;> simp [orZero, h]

/-- The filter predicate of `loss_count` tests exactly "P/L defined and
strictly negative". -/
theorem lossPred_eq (x : Option Rat) :
    decide (orZero x < 0) =
      match x with
      | some p => decide (p < 0)
      | none => false := by
  cases x with
  | none => simp [orZero]
  | some v => by_cases h : v = 0 <;> simp [orZero, h]

/-- When the planned risk is a nonzero number and the P/L is defined,
`r_multiple` returns their quotient. -/
theorem r_multiple_eq_div (t : Trade) (r p : Rat) (hr : t.risk = some r)
    (h0 : r ≠ 0) (hp : t.pl = some p) : t.r_multiple = some (p / r) := by
  simp [Trade.r_multiple, hr, hp, optTruthy, h0]

/-- Inversion: a defined `r_multiple` forces a nonzero stored risk, a
defined P/L, and the quotient shape. -/
theorem r_multiple_some_inv (t : Trade) (q : Rat)
    (hq : t.r_multiple = some q) :
    ∃ r p, t.risk = some r ∧ r ≠ 0 ∧ t.pl = some p ∧ q = p / r := by
  cases hr : t.risk with
  | none => simp [Trade.r_multiple, hr, optTruthy] at hq
  | some r =>
    by_cases h0 : r = 0
    · simp [Trade.r_multiple, hr, optTruthy, h0] at hq
    · cases hp : t.pl with
      | none => simp [Trade.r_multiple, hr, hp, optTruthy, h0] at hq
      | some p =>
        refine ⟨r, p, rfl, h0, rfl, ?_⟩
        rw [r_multiple_eq_div t r p hr h0 hp] at hq
        exact (Option.some.injEq _ _ ▸ hq).symm

/-! ### Claims -/

/-- C1: `Trade.pl` is undefined exactly when `exit_price` is absent;
otherwise it is the direction-signed price difference times the quantity,
with fees subtracted when present and nonzero — the exact value, with no
clamping. -/
theorem C1_profit_loss_formula (t : Trade) :
    (t.pl = none ↔ t.exit_price = none) ∧
    ∀ e : Rat, t.exit_price = some e →
      t.pl = some
        ((if lower t.direction = "long" then e - t.entry_price
          else t.entry_price - e) * t.quantity -
         match t.fees with
         | some f => if f ≠ 0 then f else 0
         | none => 0) := by
  constructor
  · cases h : t.exit_price <;> simp [Trade.pl, h]
  · intro e he
    cases hf : t.fees with
    | none => simp [Trade.pl, he, optTruthy, hf]
    | some f => by_cases h0 : f = 0 <;> simp [Trade.pl, he, optTruthy, hf, h0]

/-- Witness for C1 at the specification's worked example:
long, entry 100, exit 150, quantity 10, fees 20 gives 480. -/
theorem C1_profit_loss_formula_witness : sampleTrade.pl = some 480 := by
  rw [(C1_profit_loss_formula sampleTrade).2 150 rfl]
  simp [sampleTrade, lower]
  norm_num

/-- C2: the dashboard metrics are the sum of P/L with undefined treated
as zero, the count of trades with defined strictly positive P/L, and the
count of trades with defined strictly negative P/L; the empty list gives
all zeroes. -/
theorem C2_dashboard_aggregation (trades : List Trade) :
    net_pl trades = (trades.map (fun t => (t.pl).getD 0)).sum ∧
    win_count trades = trades.countP (fun t =>
      match t.pl with
      | some p => decide (0 < p)
      | none => false) ∧
    loss_count trades = trades.countP (fun t =>
      match t.pl with
      | some p => decide (p < 0)
      | none => false) ∧
    net_pl [] = 0 ∧ win_count [] = 0 ∧ loss_count [] = 0 := by
  refine ⟨?_, ?_, ?_, rfl, rfl, rfl⟩
  · simp [net_pl, orZero_eq_getD]
  · rw [win_count, List.countP_eq_length_filter]
    congr 1
    apply List.filter_congr
    intro t _
    exact winPred_eq t.pl
  · rw [loss_count, List.countP_eq_length_filter]
    congr 1
    apply List.filter_congr
    intro t _
    exact lossPred_eq t.pl

/-- C3: `Trade.r_multiple` is undefined when the risk is absent or zero
and when the P/L is undefined; otherwise it is P/L divided by risk.  The
embedding is a total function, so a zero or absent risk never raises. -/
theorem C3_r_multiple_definedness (t : Trade) :
    ((t.risk = none ∨ t.risk = some 0) → t.r_multiple = none) ∧
    (t.pl = none → t.r_multiple = none) ∧
    ∀ r p : Rat, t.risk = some r → r ≠ 0 → t.pl = some p →
      t.r_multiple = some (p / r) := by
  refine ⟨?_, ?_, ?_⟩
  · rintro (h | h) <;> simp [Trade.r_multiple, h, optTruthy]
  · intro h
    cases hr : t.risk with
    | none => simp [Trade.r_multiple, hr, optTruthy]
    | some r => by_cases h0 : r = 0 <;>
        simp [Trade.r_multiple, hr, h, optTruthy, h0]
  · exact fun r p hr h0 hp => r_multiple_eq_div t r p hr h0 hp

/-- Witness for C3: a trade with absent risk has an undefined R-multiple. -/
theorem C3_r_multiple_definedness_witness : openTrade.r_multiple = none :=
  (C3_r_multiple_definedness openTrade).1 (Or.inl rfl)

/-- C4: an edit or delete attempt on a trade owned by a different user is
answered with a redirect to the dashboard (never a 404 or other fatal
outcome) and leaves the stored trades untouched. -/
theorem C4_unauthorized_mutation_refused (db : Db) (uid tid : Nat)
    (submitted : Option TradeForm) (t : Trade)
    (hget : db.get tid = some t) (hown : t.user_id ≠ uid) :
    edit_trade db uid tid submitted =
      (Response.redirectIndex "Unauthorized access", db) ∧
    delete_trade db uid tid =
      (Response.redirectIndex "Unauthorized access", db) := by
  constructor <;> simp [edit_trade, delete_trade, hget, hown]

/-- Witness for C4: user 2 attempting to edit or delete user 1's trade is
refused and the table is unchanged. -/
theorem C4_unauthorized_mutation_refused_witness :
    edit_trade ⟨[sampleTrade]⟩ 2 1 none =
      (Response.redirectIndex "Unauthorized access", ⟨[sampleTrade]⟩) ∧
    delete_trade ⟨[sampleTrade]⟩ 2 1 =
      (Response.redirectIndex "Unauthorized access", ⟨[sampleTrade]⟩) :=
  C4_unauthorized_mutation_refused ⟨[sampleTrade]⟩ 2 1 none sampleTrade
    rfl (by decide)

/-- C5: the three dashboard metrics are invariant under permutation of
the trade list. -/
theorem C5_aggregation_permutation_invariant (l1 l2 : List Trade)
    (h : l1.Perm l2) :
    net_pl l1 = net_pl l2 ∧ win_count l1 = win_count l2 ∧
    loss_count l1 = loss_count l2 := by
  refine ⟨?_, ?_, ?_⟩
  · exact (h.map fun t => orZero t.pl).sum_eq
  · exact (h.filter fun t => decide (0 < orZero t.pl)).length_eq
  · exact (h.filter fun t => decide (orZero t.pl < 0)).length_eq

/-- Witness for C5 on a concrete two-element swap. -/
theorem C5_aggregation_permutation_invariant_witness :
    net_pl [sampleTrade, losingTrade] = net_pl [losingTrade, sampleTrade] ∧
    win_count [sampleTrade, losingTrade] =
      win_count [losingTrade, sampleTrade] ∧
    loss_count [sampleTrade, losingTrade] =
      loss_count [losingTrade, sampleTrade] :=
  C5_aggregation_permutation_invariant _ _
    (List.Perm.swap losingTrade sampleTrade [])

/-- C6: the direction comparison is case-insensitive — trades differing
only in the letter case of the direction have the same P/L. -/
theorem C6_direction_case_insensitive (t : Trade) (d1 d2 : String)
    (hcase : lower d1 = lower d2) (_hexit : t.exit_price.isSome = true) :
    ({ t with direction := d1 } : Trade).pl =
      ({ t with direction := d2 } : Trade).pl := by
  simp [Trade.pl, hcase]

/-- Witness for C6: `Long` and `LONG` give the same P/L. -/
theorem C6_direction_case_insensitive_witness :
    ({ sampleTrade with direction := "Long" } : Trade).pl =
      ({ sampleTrade with direction := "LONG" } : Trade).pl :=
  C6_direction_case_insensitive sampleTrade "Long" "LONG" (by decide) rfl

/-- C7: with strictly positive risk and a defined strictly negative P/L,
the R-multiple is defined and strictly negative. -/
theorem C7_r_multiple_sign (t : Trade) (r p : Rat) (hr : t.risk = some r)
    (hrpos : 0 < r) (hp : t.pl = some p) (hneg : p < 0) :
    t.r_multiple = some (p / r) ∧ p / r < 0 :=
  ⟨r_multiple_eq_div t r p hr (ne_of_gt hrpos) hp,
   div_neg_of_neg_of_pos hneg hrpos⟩

/-- Witness for C7: the losing trade (P/L −100, risk 50) has R-multiple
−2 < 0. -/
theorem C7_r_multiple_sign_witness :
    losingTrade.r_multiple = some ((-100 : Rat) / 50) ∧
    ((-100 : Rat) / 50) < 0 :=
  C7_r_multiple_sign losingTrade 50 (-100) rfl (by norm_num)
    (by simp [Trade.pl, losingTrade, sampleTrade, optTruthy, lower]; norm_num)
    (by norm_num)

/-- C8: any direction that does not lower-case to `long` — including the
empty string or arbitrary text — takes the short branch, and the P/L is
still defined (no error, no undefined result). -/
theorem C8_invalid_direction_short_formula (t : Trade) (e : Rat)
    (he : t.exit_price = some e) (hd : lower t.direction ≠ "long") :
    t.pl = some ((t.entry_price - e) * t.quantity -
      match t.fees with
      | some f => if f ≠ 0 then f else 0
      | none => 0) := by
  cases hf : t.fees with
  | none => simp [Trade.pl, he, hd, optTruthy, hf]
  | some f => by_cases h0 : f = 0 <;> simp [Trade.pl, he, hd, optTruthy, hf, h0]

/-- Witness for C8: an empty direction string gets the short formula,
(100 − 150)·10 = −500. -/
theorem C8_invalid_direction_short_formula_witness :
    blankDirectionTrade.pl = some (-500) := by
  rw [C8_invalid_direction_short_formula blankDirectionTrade 150 rfl (by decide)]
  simp [blankDirectionTrade, sampleTrade]
  norm_num

/-- C9: whenever the R-multiple is defined, multiplying it by the stored
risk recovers the P/L exactly. -/
theorem C9_r_multiple_times_risk (t : Trade) (q : Rat)
    (hq : t.r_multiple = some q) :
    ∃ r p, t.risk = some r ∧ t.pl = some p ∧ q * r = p := by
  obtain ⟨r, p, hr, h0, hp, rfl⟩ := r_multiple_some_inv t q hq
  exact ⟨r, p, hr, hp, div_mul_cancel₀ p h0⟩

/-- Witness for C9 at the losing trade, whose R-multiple is −2. -/
theorem C9_r_multiple_times_risk_witness :
    ∃ r p, losingTrade.risk = some r ∧ losingTrade.pl = some p ∧
      (-2 : Rat) * r = p :=
  C9_r_multiple_times_risk losingTrade (-2)
    (by simp [Trade.r_multiple, Trade.pl, losingTrade, sampleTrade,
          optTruthy, lower]; norm_num)

/-- C10: an edit or delete request for a nonexistent trade id yields the
404 outcome of `get_or_404` and leaves the stored trades untouched. -/
theorem C10_missing_trade_not_found (db : Db) (uid tid : Nat)
    (submitted : Option TradeForm) (hget : db.get tid = none) :
    edit_trade db uid tid submitted = (Response.notFound, db) ∧
    delete_trade db uid tid = (Response.notFound, db) := by
  constructor <;> simp [edit_trade, delete_trade, hget]

/-- Witness for C10 on the empty table. -/
theorem C10_missing_trade_not_found_witness :
    edit_trade ⟨[]⟩ 1 7 none = (Response.notFound, ⟨[]⟩) ∧
    delete_trade ⟨[]⟩ 1 7 = (Response.notFound, ⟨[]⟩) :=
  C10_missing_trade_not_found ⟨[]⟩ 1 7 none rfl

end TradeJournal
